import Mathlib

/-!
Verification of the proxy tester (src/main.go).

Strings from the Go source are embedded as `List Char`; `strings.Split`
on the one-character separator ":" is embedded as `splitOnColon`;
`time.Duration` as `Nat` (nanoseconds); HTTP status codes as `Int`
(the sentinel value is -1).
-/

/-- Go string embedded as a list of characters. -/
abbrev GoString := List Char

/-- Embeds `strings.Split(s, ":")`: the colon-separated fields of `s`,
empty fields preserved; the empty string yields one empty field. -/
def splitOnColon : GoString → List GoString
  | [] => [[]]
  | c :: cs =>
    if c = ':' then
      [] :: splitOnColon cs
    else
      match splitOnColon cs with
      | [] => [[c]]
      | f :: fs => (c :: f) :: fs

/-- Joins fields back with ":"; the inverse of `splitOnColon`. -/
def joinColon : List GoString → GoString
  | [] => []
  | [f] => f
  | f :: fs => f ++ ':' :: joinColon fs

/-- Embeds `type Proxy struct` from src/main.go: host, port and optional
credentials, all strings. -/
structure Proxy where
  IP : GoString
  Port : GoString
  User : GoString
  Pass : GoString
  deriving Repr, DecidableEq

/-- Embeds `type ProxyTestResult struct` from src/main.go: the record tested,
the elapsed duration, the HTTP status code (or -1) and the
transport-success flag. -/
structure ProxyTestResult where
  ProxyUsed : Proxy
  Speed : Nat
  StatusCode : Int
  Success : Bool
  deriving Repr, DecidableEq

/-- Embeds `func (p *Proxy) rawString() string`: `ip:port`, with
`:user:pass` appended when both credentials are non-empty. -/
def Proxy.rawString (p : Proxy) : GoString :=
  let raw := p.IP ++ ':' :: p.Port
  if p.User ≠ [] ∧ p.Pass ≠ [] then
    raw ++ ':' :: p.User ++ ':' :: p.Pass
  else
    raw

/-- Embeds `func (p *Proxy) conString() string`: `ip:port`, prefixed by
`user:pass@` when both credentials are non-empty. -/
def Proxy.conString (p : Proxy) : GoString :=
  let raw := p.IP ++ ':' :: p.Port
  if p.User ≠ [] ∧ p.Pass ≠ [] then
    p.User ++ ':' :: p.Pass ++ '@' :: raw
  else
    raw

/-- The error value of `stringToProxy` (`errors.New("Error parsing
proxy")`), the spec's `MalformedProxyLine` condition. -/
def malformedProxyLine : GoString := "Error parsing proxy".toList

/-- Embeds `func stringToProxy(line string) (Proxy, error)`: split on ":";
2 fields give `ip:port`, 4 fields give `ip:port:user:pass`, any
other count is an error. -/
def stringToProxy (line : GoString) : Except GoString Proxy :=
  let parts := splitOnColon line
  if parts.length = 2 then
    .ok ⟨parts.getD 0 [], parts.getD 1 [], [], []⟩
  else if parts.length = 4 then
    .ok ⟨parts.getD 0 [], parts.getD 1 [], parts.getD 2 [], parts.getD 3 []⟩
  else
    .error malformedProxyLine

/-- Embeds `func loadProxies` after the file is opened: parse each line,
keep the records whose parse succeeded, skip the rest. -/
def loadProxies (lines : List GoString) : List Proxy :=
  lines.foldl
    (fun acc line =>
      match stringToProxy line with
      | .ok p => acc ++ [p]
      | .error _ => acc)
    []

/-- Environment of one `testProxy` call: what the Go standard library
returns at each of its three call sites.  `urlParseOk` is whether
`url.Parse(proxy.conString())` succeeds (on failure the parsed URL is
nil and the error is overwritten); `newRequestOk` is whether
`http.NewRequest` succeeds; `doResult` is the outcome of
`myClient.Do(req)` — `none` for a transport-level error, `some s` for
a response with status code `s`; `elapsed` is the measured wall-clock
duration of the `Do` call. -/
structure ProbeEnv where
  urlParseOk : Bool
  newRequestOk : Bool
  doResult : Option Int
  elapsed : Nat
  deriving Repr, DecidableEq

/-- What one `testProxy` goroutine does to the result channel:
sends one `ProxyTestResult`, returns without sending, or panics. -/
inductive ProbeEffect where
  | emitted (r : ProxyTestResult)
  | dropped
  | panicked
  deriving Repr, DecidableEq

/-- Embeds `func testProxy(proxy Proxy, endpoint string, c chan
ProxyTestResult)`.  The `url.Parse` error is discarded (its `err` is
overwritten by the `http.NewRequest` one) and the client is built
regardless.  When `http.NewRequest` fails it returns a nil request,
and the unconditional `req.Header.Add` calls dereference it: a
runtime panic, before the `if err == nil` guard is reached.  When the
request is built, `success` starts `true` and `statusCode` starts
`-1`; a `Do` error flips `success` to `false`, a response overwrites
`statusCode`; the result is sent on the channel. -/
def testProxy (proxy : Proxy) (env : ProbeEnv) : ProbeEffect :=
  if env.newRequestOk = false then
    .panicked
  else
    match env.doResult with
    | none => .emitted ⟨proxy, env.elapsed, -1, false⟩
    | some s => .emitted ⟨proxy, env.elapsed, s, true⟩

/-- The three dispositions of §3 of the spec, derived from the three
branches of the classification in `handleProxyResult`. -/
inductive Disposition where
  | Working
  | Suspect
  | Failed
  deriving Repr, DecidableEq

/-- The branch of `handleProxyResult` a result falls into:
`Success && StatusCode >= 200 && StatusCode < 400` is the first
(Working) branch, `StatusCode == -1` the second (Failed) branch,
anything else the third (Suspect) branch. -/
def classify (r : ProxyTestResult) : Disposition :=
  if r.Success = true ∧ 200 ≤ r.StatusCode ∧ r.StatusCode < 400 then
    .Working
  else if r.StatusCode = -1 then
    .Failed
  else
    .Suspect

/-- One iteration of the loop body of `handleProxyResult`: append the
record's raw string to `goodProxies` or to `badProxies` according to
the branch taken. -/
def handleOneResult (r : ProxyTestResult) (acc : List GoString × List GoString) :
    List GoString × List GoString :=
  if r.Success = true ∧ 200 ≤ r.StatusCode ∧ r.StatusCode < 400 then
    (acc.1 ++ [r.ProxyUsed.rawString], acc.2)
  else if r.StatusCode = -1 then
    (acc.1, acc.2 ++ [r.ProxyUsed.rawString])
  else
    (acc.1 ++ [r.ProxyUsed.rawString], acc.2)

/-- Embeds `func handleProxyResult(c chan ProxyTestResult, numOfProxies int,
goodProxies *[]string, badProxies *[]string)`: receive
`numOfProxies` results from the channel (modelled as the list of
values sent, in arrival order), classify each, then close the
channel and return.  `none` models the loop blocking forever because
fewer than `numOfProxies` results ever arrive. -/
def handleProxyResult : List ProxyTestResult → Nat →
    List GoString × List GoString → Option (List GoString × List GoString)
  | _, 0, acc => some acc
  | [], _ + 1, _ => none
  | r :: c, n + 1, acc => handleProxyResult c n (handleOneResult r acc)

/-- The invariant of §3 of the spec on a `ProbeOutcome`: a failed
transport carries the sentinel status, a successful one carries a
real status in [100,599]. -/
def probeInvariant (r : ProxyTestResult) : Prop :=
  (r.Success = false → r.StatusCode = -1) ∧
  (r.Success = true → 100 ≤ r.StatusCode ∧ r.StatusCode ≤ 599)

instance (r : ProxyTestResult) : Decidable (probeInvariant r) := by
  unfold probeInvariant
  infer_instance

/-! ### Split and join lemmas -/

theorem splitOnColon_ne_nil (s : GoString) : splitOnColon s ≠ [] := by
  cases s with
  | nil => simp [splitOnColon]
  | cons c cs =>
    unfold splitOnColon
    split
    · simp
    · split <;> simp

theorem joinColon_cons_cons (f g : GoString) (fs : List GoString) :
    joinColon (f :: g :: fs) = f ++ ':' :: joinColon (g :: fs) := by
  simp [joinColon]

theorem joinColon_splitOnColon (s : GoString) : joinColon (splitOnColon s) = s := by
  induction s with
  | nil => rfl
  | cons c cs ih =>
    unfold splitOnColon
    split
    · rename_i hc
      rcases hr : splitOnColon cs with _ | ⟨f, fs⟩
      · exact absurd hr (splitOnColon_ne_nil cs)
      · rw [hr] at ih
        rw [joinColon_cons_cons, hc]
        simpa using ih
    · rcases hr : splitOnColon cs with _ | ⟨f, fs⟩
      · exact absurd hr (splitOnColon_ne_nil cs)
      · rw [hr] at ih
        rcases fs with _ | ⟨g, gs⟩
        · simpa [joinColon] using ih
        · rw [joinColon_cons_cons] at ih ⊢
          simpa using ih

theorem list_length_eq_four {α : Type} {l : List α} :
    l.length = 4 ↔ ∃ a b c d, l = [a, b, c, d] := by
  rcases l with _ | ⟨a, _ | ⟨b, _ | ⟨c, _ | ⟨d, _ | ⟨e, t⟩⟩⟩⟩⟩ <;> simp

/-! ### C3: parse / raw-string round trip -/

/-- C3 (amended): for every input line with exactly 2 colon-delimited
fields, and for every line with exactly 4 colon-delimited fields whose
user and pass fields are both non-empty, parsing succeeds and the
raw-form projection of the resulting record equals the original line.
(The amendment restricts the 4-field case to non-empty credential
fields; see the counterexample.) -/
theorem stringToProxy_rawString_roundtrip (line : GoString)
    (h : (splitOnColon line).length = 2 ∨
      ((splitOnColon line).length = 4 ∧
        (splitOnColon line).getD 2 [] ≠ [] ∧ (splitOnColon line).getD 3 [] ≠ [])) :
    ∃ r, stringToProxy line = .ok r ∧ r.rawString = line := by
  have hj := joinColon_splitOnColon line
  rcases h with h2 | ⟨h4, hu, hp⟩
  · obtain ⟨a, b, hl⟩ := List.length_eq_two.mp h2
    refine ⟨⟨a, b, [], []⟩, ?_, ?_⟩
    · simp [stringToProxy, hl]
    · rw [hl] at hj
      simp only [joinColon_cons_cons, joinColon] at hj
      simpa [Proxy.rawString] using hj
  · obtain ⟨a, b, c, d, hl⟩ := list_length_eq_four.mp h4
    rw [hl] at hu hp hj
    simp [List.getD] at hu hp
    refine ⟨⟨a, b, c, d⟩, ?_, ?_⟩
    · simp [stringToProxy, hl]
    · simp only [joinColon_cons_cons, joinColon] at hj
      simpa [Proxy.rawString, hu, hp] using hj

/-- C3 witness: the 2-field line `1.2.3.4:8080` parses and
round-trips. -/
theorem stringToProxy_rawString_roundtrip_witness :
    ∃ r, stringToProxy ("1.2.3.4:8080".toList) = .ok r ∧
      r.rawString = "1.2.3.4:8080".toList :=
  stringToProxy_rawString_roundtrip ("1.2.3.4:8080".toList) (Or.inl (by decide))

/-- C3 counterexample: the line `h:1::p` has exactly 4 colon-delimited
fields, parsing succeeds, yet the raw-form projection of the result is
`h:1`, not the original line: with an empty user field `rawString`
omits the credentials. -/
theorem stringToProxy_roundtrip_cex :
    (splitOnColon ("h:1::p".toList)).length = 4 ∧
    stringToProxy ("h:1::p".toList) =
      .ok ⟨"h".toList, "1".toList, [], "p".toList⟩ ∧
    Proxy.rawString ⟨"h".toList, "1".toList, [], "p".toList⟩ = "h:1".toList ∧
    "h:1".toList ≠ "h:1::p".toList := by
  refine ⟨by decide, rfl, by decide, by decide⟩

/-! ### C6: malformed lines -/

/-- C6: every line whose colon-delimited field count is neither 2 nor 4
fails to parse with the `MalformedProxyLine` error, and removing such a
line from the input of `loadProxies` does not change the loaded list:
the line contributes zero records and is not fatal to the rest. -/
theorem stringToProxy_malformed (line : GoString)
    (h2 : (splitOnColon line).length ≠ 2) (h4 : (splitOnColon line).length ≠ 4) :
    stringToProxy line = .error malformedProxyLine ∧
    ∀ pre post, loadProxies (pre ++ line :: post) = loadProxies (pre ++ post) := by
  have herr : stringToProxy line = .error malformedProxyLine := by
    simp [stringToProxy, h2, h4]
  refine ⟨herr, fun pre post => ?_⟩
  unfold loadProxies
  rw [List.foldl_append, List.foldl_append, List.foldl_cons]
  simp [herr]

/-- C6 witness: the 3-field line `a:b:c` is rejected and contributes
nothing to a surrounding load. -/
theorem stringToProxy_malformed_witness :
    stringToProxy ("a:b:c".toList) = .error malformedProxyLine ∧
    loadProxies ["x:1".toList, "a:b:c".toList, "y:2".toList] =
      loadProxies ["x:1".toList, "y:2".toList] := by
  have h := stringToProxy_malformed ("a:b:c".toList) (by decide) (by decide)
  exact ⟨h.1, h.2 ["x:1".toList] ["y:2".toList]⟩

/-! ### C7: credentials invariant -/

/-- C7 (amended): a record produced by successful parsing satisfies the
both-present-or-both-absent credentials invariant whenever the line's
third and fourth fields are not exactly-one-empty (in particular for
every 2-field line and every 4-field line with both credential fields
non-empty or both empty).  The unamended claim fails: see the
counterexample. -/
theorem stringToProxy_credentials (line : GoString) (p : Proxy)
    (hok : stringToProxy line = .ok p)
    (hbal : (splitOnColon line).getD 2 [] = [] ↔ (splitOnColon line).getD 3 [] = []) :
    (p.User ≠ [] ∧ p.Pass ≠ []) ∨ (p.User = [] ∧ p.Pass = []) := by
  simp only [stringToProxy] at hok
  split at hok
  · cases hok
    exact Or.inr ⟨rfl, rfl⟩
  · split at hok
    · cases hok
      by_cases hu : (splitOnColon line).getD 2 [] = []
      · exact Or.inr ⟨hu, hbal.mp hu⟩
      · exact Or.inl ⟨hu, fun hp => hu (hbal.mpr hp)⟩
    · simp at hok

/-- C7 witness: the record parsed from `a:b:c:d` has both credentials
present. -/
theorem stringToProxy_credentials_witness :
    (Proxy.User ⟨"a".toList, "b".toList, "c".toList, "d".toList⟩ ≠ [] ∧
      Proxy.Pass ⟨"a".toList, "b".toList, "c".toList, "d".toList⟩ ≠ []) ∨
    (Proxy.User ⟨"a".toList, "b".toList, "c".toList, "d".toList⟩ = [] ∧
      Proxy.Pass ⟨"a".toList, "b".toList, "c".toList, "d".toList⟩ = []) :=
  stringToProxy_credentials ("a:b:c:d".toList)
    ⟨"a".toList, "b".toList, "c".toList, "d".toList⟩ rfl (by decide)

/-- C7 counterexample: the 4-field line `1.2.3.4:99:u:` parses
successfully into a record with a non-empty user and an empty
password — a partial credential state, violating the invariant. -/
theorem stringToProxy_credentials_cex :
    stringToProxy ("1.2.3.4:99:u:".toList) =
      .ok ⟨"1.2.3.4".toList, "99".toList, "u".toList, []⟩ ∧
    ¬((Proxy.User ⟨"1.2.3.4".toList, "99".toList, "u".toList, []⟩ ≠ [] ∧
        Proxy.Pass ⟨"1.2.3.4".toList, "99".toList, "u".toList, []⟩ ≠ []) ∨
      (Proxy.User ⟨"1.2.3.4".toList, "99".toList, "u".toList, []⟩ = [] ∧
        Proxy.Pass ⟨"1.2.3.4".toList, "99".toList, "u".toList, []⟩ = [])) := by
  refine ⟨rfl, by decide⟩

/-! ### Aggregator lemmas -/

theorem handleOneResult_spec (r : ProxyTestResult) (g0 b0 : List GoString) :
    (handleOneResult r (g0, b0)).1.length + (handleOneResult r (g0, b0)).2.length
      = g0.length + b0.length + 1 ∧
    ((handleOneResult r (g0, b0)).1 ++ (handleOneResult r (g0, b0)).2).Perm
      (g0 ++ b0 ++ [r.ProxyUsed.rawString]) := by
  unfold handleOneResult
  split
  · refine ⟨by simp; omega, ?_⟩
    rw [List.append_assoc, List.append_assoc]
    exact List.Perm.append_left g0 (List.perm_append_comm)
  · split
    · exact ⟨by simp; omega, by rw [List.append_assoc]⟩
    · refine ⟨by simp; omega, ?_⟩
      rw [List.append_assoc, List.append_assoc]
      exact List.Perm.append_left g0 (List.perm_append_comm)

theorem handleProxyResult_take (n : Nat) :
    ∀ (c : List ProxyTestResult) (acc : List GoString × List GoString),
      handleProxyResult c n acc = handleProxyResult (c.take n) n acc := by
  induction n with
  | zero => intro c acc; cases c <;> rfl
  | succ n ih =>
    intro c acc
    cases c with
    | nil => rfl
    | cons r c =>
      show handleProxyResult c n (handleOneResult r acc) = _
      rw [ih c]
      rfl

theorem handleProxyResult_spec (n : Nat) :
    ∀ (c : List ProxyTestResult) (g0 b0 : List GoString), n ≤ c.length →
      ∃ g b, handleProxyResult c n (g0, b0) = some (g, b) ∧
        g.length + b.length = g0.length + b0.length + n ∧
        (g ++ b).Perm (g0 ++ b0 ++ (c.take n).map (fun r => r.ProxyUsed.rawString)) := by
  induction n with
  | zero =>
    intro c g0 b0 _
    exact ⟨g0, b0, by cases c <;> rfl, by omega, by simp⟩
  | succ n ih =>
    intro c g0 b0 hlen
    cases c with
    | nil => simp at hlen
    | cons r c =>
      obtain ⟨g1, b1, h1⟩ : ∃ g1 b1, handleOneResult r (g0, b0) = (g1, b1) :=
        ⟨_, _, rfl⟩
      have hspec := handleOneResult_spec r g0 b0
      rw [h1] at hspec
      simp only at hspec
      obtain ⟨g, b, he, hl2, hp2⟩ := ih c g1 b1 (by simpa using hlen)
      refine ⟨g, b, ?_, by omega, ?_⟩
      · show handleProxyResult c n (handleOneResult r (g0, b0)) = some (g, b)
        rw [h1]
        exact he
      · have hstep : (g1 ++ b1 ++ (c.take n).map (fun r => r.ProxyUsed.rawString)).Perm
            ((g0 ++ b0 ++ [r.ProxyUsed.rawString]) ++
              (c.take n).map (fun r => r.ProxyUsed.rawString)) :=
          List.Perm.append_right _ hspec.2
        refine hp2.trans (hstep.trans ?_)
        have heq : (g0 ++ b0 ++ [r.ProxyUsed.rawString]) ++
            (c.take n).map (fun r => r.ProxyUsed.rawString) =
            g0 ++ b0 ++ ((r :: c).take (n + 1)).map (fun r => r.ProxyUsed.rawString) := by
          simp
        rw [heq]

/-! ### C2: the aggregator consumes exactly N outcomes -/

/-- C2: for a batch of `N` dispatched records whose stream carries at
least `N` outcomes, the aggregator's loop reads exactly the first `N`
outcomes (its result is unchanged by truncating the stream to `N`),
returns a pair of lists whose lengths sum to `N`, and appends the raw
string of every consumed outcome to exactly one of the two lists (the
concatenation of the results is a permutation of the consumed
outcomes' raw strings). -/
theorem handleProxyResult_consumes_batch (c : List ProxyTestResult) (N : Nat)
    (h : N ≤ c.length) :
    handleProxyResult c N ([], []) = handleProxyResult (c.take N) N ([], []) ∧
    ∃ g b, handleProxyResult c N ([], []) = some (g, b) ∧
      g.length + b.length = N ∧
      (g ++ b).Perm ((c.take N).map (fun r => r.ProxyUsed.rawString)) := by
  refine ⟨handleProxyResult_take N c ([], []), ?_⟩
  obtain ⟨g, b, he, hl, hp⟩ := handleProxyResult_spec N c [] [] h
  exact ⟨g, b, he, by simpa using hl, by simpa using hp⟩

/-- C2 witness: a concrete batch of two outcomes. -/
theorem handleProxyResult_consumes_batch_witness :
    (handleProxyResult
        [⟨⟨"h".toList, "1".toList, [], []⟩, 3, -1, false⟩,
         ⟨⟨"k".toList, "2".toList, [], []⟩, 4, 200, true⟩] 2 ([], []) =
      handleProxyResult
        ([⟨⟨"h".toList, "1".toList, [], []⟩, 3, -1, false⟩,
          ⟨⟨"k".toList, "2".toList, [], []⟩, 4, 200, true⟩].take 2) 2 ([], [])) ∧
    ∃ (g b : List GoString), handleProxyResult
        [⟨⟨"h".toList, "1".toList, [], []⟩, 3, -1, false⟩,
         ⟨⟨"k".toList, "2".toList, [], []⟩, 4, 200, true⟩] 2 ([], []) = some (g, b) ∧
      g.length + b.length = 2 ∧
      (g ++ b).Perm ((([⟨⟨"h".toList, "1".toList, [], []⟩, 3, -1, false⟩,
         ⟨⟨"k".toList, "2".toList, [], []⟩, 4, 200, true⟩] :
          List ProxyTestResult).take 2).map
          (fun r => r.ProxyUsed.rawString)) :=
  handleProxyResult_consumes_batch
    [⟨⟨"h".toList, "1".toList, [], []⟩, 3, -1, false⟩,
     ⟨⟨"k".toList, "2".toList, [], []⟩, 4, 200, true⟩] 2 (by decide)

/-! ### C1: classification -/

/-- C1: for every outcome received by the aggregator (all of which
satisfy the probe invariant), classification depends only on the
transport-success flag and the status code: a failed transport is
classified `Failed` and appended to the bad list; a successful
transport with status in [200,399] is classified `Working` and a
successful transport with status outside [200,399] is classified
`Suspect`, and both are appended to the good list. -/
theorem classify_of_received (r : ProxyTestResult)
    (acc : List GoString × List GoString) (hinv : probeInvariant r) :
    (r.Success = false → classify r = .Failed ∧
      handleOneResult r acc = (acc.1, acc.2 ++ [r.ProxyUsed.rawString])) ∧
    (r.Success = true → 200 ≤ r.StatusCode → r.StatusCode < 400 →
      classify r = .Working ∧
      handleOneResult r acc = (acc.1 ++ [r.ProxyUsed.rawString], acc.2)) ∧
    (r.Success = true → (r.StatusCode < 200 ∨ 400 ≤ r.StatusCode) →
      classify r = .Suspect ∧
      handleOneResult r acc = (acc.1 ++ [r.ProxyUsed.rawString], acc.2)) := by
  obtain ⟨hf, ht⟩ := hinv
  refine ⟨fun h => ?_, fun h h1 h2 => ?_, fun h hrange => ?_⟩
  · simp [classify, handleOneResult, h, hf h]
  · simp [classify, handleOneResult, h, h1, h2]
  · have hsc := ht h
    have hne : r.StatusCode ≠ -1 := by omega
    have hnot : ¬(200 ≤ r.StatusCode ∧ r.StatusCode < 400) := by omega
    simp [classify, handleOneResult, h, hne, hnot]

/-- C1 witness: an outcome with transport success and HTTP status 403
is classified Suspect and appended to the good list, not the bad
one. -/
theorem classify_of_received_witness :
    classify ⟨⟨"h".toList, "1".toList, [], []⟩, 5, 403, true⟩ = .Suspect ∧
    handleOneResult ⟨⟨"h".toList, "1".toList, [], []⟩, 5, 403, true⟩ ([], []) =
      (["h:1".toList], []) :=
  (classify_of_received ⟨⟨"h".toList, "1".toList, [], []⟩, 5, 403, true⟩ ([], [])
    (by decide)).2.2 rfl (by decide)

/-! ### C9: the aggregator has no hidden state -/

/-- Execution relation of the `handleProxyResult` loop: from stream
`c`, with `n` iterations remaining and accumulator `acc`, one run of
the loop terminates with final accumulator `out`. -/
inductive HandleLoop : List ProxyTestResult → Nat →
    List GoString × List GoString → List GoString × List GoString → Prop
  | done (c : List ProxyTestResult) (acc : List GoString × List GoString) :
      HandleLoop c 0 acc acc
  | step (r : ProxyTestResult) (c : List ProxyTestResult) (n : Nat)
      (acc out : List GoString × List GoString) :
      HandleLoop c n (handleOneResult r acc) out →
      HandleLoop (r :: c) (n + 1) acc out

theorem handleLoop_det {c : List ProxyTestResult} {n : Nat}
    {acc out1 : List GoString × List GoString} (h1 : HandleLoop c n acc out1) :
    ∀ out2, HandleLoop c n acc out2 → out1 = out2 := by
  induction h1 with
  | done c acc =>
    intro out2 h2
    cases h2
    rfl
  | step r c n acc out h ih =>
    intro out2 h2
    cases h2 with
    | step _ _ _ _ _ hrest => exact ih _ hrest

theorem handleLoop_eq (c : List ProxyTestResult) (n : Nat)
    (acc out : List GoString × List GoString) (h : HandleLoop c n acc out) :
    handleProxyResult c n acc = some out := by
  induction h with
  | done c acc => cases c <;> rfl
  | step r c n acc out h ih => exact ih

/-- C9: two runs of the aggregator loop over the same fixed sequence
of outcomes from the same starting accumulator terminate with
identical good/bad partitions, the value computed by the pure function
of the consumed outcomes — there is no hidden state. -/
theorem handleProxyResult_no_hidden_state (c : List ProxyTestResult) (n : Nat)
    (acc out1 out2 : List GoString × List GoString)
    (h1 : HandleLoop c n acc out1) (h2 : HandleLoop c n acc out2) :
    out1 = out2 ∧ handleProxyResult c n acc = some out1 :=
  ⟨handleLoop_det h1 out2 h2, handleLoop_eq c n acc out1 h1⟩

/-- C9 witness: two runs over a one-outcome stream agree. -/
theorem handleProxyResult_no_hidden_state_witness :
    (([], ["h:1".toList]) : List GoString × List GoString) = ([], ["h:1".toList]) ∧
    handleProxyResult [⟨⟨"h".toList, "1".toList, [], []⟩, 3, -1, false⟩] 1 ([], []) =
      some ([], ["h:1".toList]) :=
  handleProxyResult_no_hidden_state
    [⟨⟨"h".toList, "1".toList, [], []⟩, 3, -1, false⟩] 1 ([], [])
    ([], ["h:1".toList]) ([], ["h:1".toList])
    (HandleLoop.step _ _ 0 _ _ (HandleLoop.done _ _))
    (HandleLoop.step _ _ 0 _ _ (HandleLoop.done _ _))

/-! ### C4: the emitted outcome invariant -/

/-- C4: every outcome emitted by `testProxy` records the elapsed
duration; when its transport-success flag is false the status code is
the sentinel -1 (and the request indeed failed at transport level);
when the flag is true the status code is the very status the remote
server returned, and lies in [100,599] whenever the server's statuses
do. -/
theorem testProxy_emitted_invariant (proxy : Proxy) (env : ProbeEnv)
    (r : ProxyTestResult) (he : testProxy proxy env = .emitted r)
    (hsrv : ∀ s, env.doResult = some s → 100 ≤ s ∧ s ≤ 599) :
    r.Speed = env.elapsed ∧
    (r.Success = false → r.StatusCode = -1 ∧ env.doResult = none) ∧
    (r.Success = true → env.doResult = some r.StatusCode ∧
      100 ≤ r.StatusCode ∧ r.StatusCode ≤ 599) := by
  unfold testProxy at he
  split at he
  · exact absurd he (by simp)
  · rcases hd : env.doResult with _ | s
    · rw [hd] at he
      cases he
      exact ⟨rfl, fun _ => ⟨rfl, rfl⟩, fun h => Bool.noConfusion h⟩
    · rw [hd] at he
      cases he
      exact ⟨rfl, fun h => Bool.noConfusion h, fun _ => ⟨rfl, hsrv s hd⟩⟩

/-- C4 witness: a probe seeing a 200 response after 400ms. -/
theorem testProxy_emitted_invariant_witness :
    (ProxyTestResult.Speed
        ⟨⟨"h".toList, "1".toList, [], []⟩, 400000000, 200, true⟩ = 400000000) ∧
    ((ProxyTestResult.Success
        ⟨⟨"h".toList, "1".toList, [], []⟩, 400000000, 200, true⟩ = false →
      ProxyTestResult.StatusCode
        ⟨⟨"h".toList, "1".toList, [], []⟩, 400000000, 200, true⟩ = -1 ∧
      ProbeEnv.doResult ⟨true, true, some 200, 400000000⟩ = none)) ∧
    ((ProxyTestResult.Success
        ⟨⟨"h".toList, "1".toList, [], []⟩, 400000000, 200, true⟩ = true →
      ProbeEnv.doResult ⟨true, true, some 200, 400000000⟩ =
        some (ProxyTestResult.StatusCode
          ⟨⟨"h".toList, "1".toList, [], []⟩, 400000000, 200, true⟩) ∧
      100 ≤ ProxyTestResult.StatusCode
        ⟨⟨"h".toList, "1".toList, [], []⟩, 400000000, 200, true⟩ ∧
      ProxyTestResult.StatusCode
        ⟨⟨"h".toList, "1".toList, [], []⟩, 400000000, 200, true⟩ ≤ 599)) :=
  testProxy_emitted_invariant ⟨"h".toList, "1".toList, [], []⟩
    ⟨true, true, some 200, 400000000⟩
    ⟨⟨"h".toList, "1".toList, [], []⟩, 400000000, 200, true⟩
    rfl (fun s hs => by cases hs; decide)

/-! ### C5: request-construction failure -/

/-- C5 (code behaviour): when `http.NewRequest` fails, `testProxy`
does not silently drop the outcome — the unconditional
`req.Header.Add` calls dereference the nil request and the goroutine
panics, crashing the process.  No outcome is emitted, but not
silently: the spec's described silent drop never happens. -/
theorem testProxy_construction_failure_panics (proxy : Proxy) (env : ProbeEnv)
    (h : env.newRequestOk = false) :
    testProxy proxy env = .panicked ∧ testProxy proxy env ≠ .dropped := by
  unfold testProxy
  rw [if_pos h]
  exact ⟨rfl, by simp⟩

/-- C5 witness: a concrete probe whose request construction fails. -/
theorem testProxy_construction_failure_panics_witness :
    testProxy ⟨"h".toList, "1".toList, [], []⟩ ⟨true, false, none, 0⟩ = .panicked ∧
    testProxy ⟨"h".toList, "1".toList, [], []⟩ ⟨true, false, none, 0⟩ ≠ .dropped :=
  testProxy_construction_failure_panics ⟨"h".toList, "1".toList, [], []⟩
    ⟨true, false, none, 0⟩ rfl

/-! ### C10: a failed URL parse does not skip the probe -/

/-- C10: when `url.Parse` of the connection form fails, the probe does
not skip or abort: the parse error is discarded, the behaviour is
identical to the successful-parse case (the client is simply built
with the nil proxy URL), and an outcome is still emitted whenever
request construction itself succeeds. -/
theorem testProxy_urlParse_discarded (proxy : Proxy) (env : ProbeEnv)
    (_hurl : env.urlParseOk = false) (hreq : env.newRequestOk = true) :
    (∃ r, testProxy proxy env = .emitted r) ∧
    testProxy proxy env = testProxy proxy { env with urlParseOk := true } := by
  refine ⟨?_, rfl⟩
  unfold testProxy
  rcases hd : env.doResult with _ | s
  · exact ⟨⟨proxy, env.elapsed, -1, false⟩, by simp [hreq, hd]⟩
  · exact ⟨⟨proxy, env.elapsed, s, true⟩, by simp [hreq, hd]⟩

/-- C10 witness: a probe with a failed URL parse and a successful
request construction still emits its outcome. -/
theorem testProxy_urlParse_discarded_witness :
    (∃ r, testProxy ⟨"h".toList, "1".toList, [], []⟩ ⟨false, true, some 200, 7⟩ =
      .emitted r) ∧
    testProxy ⟨"h".toList, "1".toList, [], []⟩ ⟨false, true, some 200, 7⟩ =
      testProxy ⟨"h".toList, "1".toList, [], []⟩ ⟨true, true, some 200, 7⟩ :=
  testProxy_urlParse_discarded ⟨"h".toList, "1".toList, [], []⟩
    ⟨false, true, some 200, 7⟩ rfl rfl

/-! ### C8: the concrete two-proxy scenario -/

/-- C8: for the records parsed from `1.2.3.4:8080` and
`5.6.7.8:8080:alice:secret`, if the first probe times out (transport
failure after the 10-second timeout) and the second returns HTTP 200
in 400ms, the aggregator returns good = [`5.6.7.8:8080:alice:secret`]
and bad = [`1.2.3.4:8080`]. -/
theorem scenario_two_proxies :
    stringToProxy ("1.2.3.4:8080".toList) =
      .ok ⟨"1.2.3.4".toList, "8080".toList, [], []⟩ ∧
    stringToProxy ("5.6.7.8:8080:alice:secret".toList) =
      .ok ⟨"5.6.7.8".toList, "8080".toList, "alice".toList, "secret".toList⟩ ∧
    testProxy ⟨"1.2.3.4".toList, "8080".toList, [], []⟩
        ⟨true, true, none, 10000000000⟩ =
      .emitted ⟨⟨"1.2.3.4".toList, "8080".toList, [], []⟩, 10000000000, -1, false⟩ ∧
    testProxy ⟨"5.6.7.8".toList, "8080".toList, "alice".toList, "secret".toList⟩
        ⟨true, true, some 200, 400000000⟩ =
      .emitted ⟨⟨"5.6.7.8".toList, "8080".toList, "alice".toList, "secret".toList⟩,
        400000000, 200, true⟩ ∧
    handleProxyResult
      [⟨⟨"1.2.3.4".toList, "8080".toList, [], []⟩, 10000000000, -1, false⟩,
       ⟨⟨"5.6.7.8".toList, "8080".toList, "alice".toList, "secret".toList⟩,
        400000000, 200, true⟩] 2 ([], []) =
      some (["5.6.7.8:8080:alice:secret".toList], ["1.2.3.4:8080".toList]) :=
  ⟨rfl, rfl, rfl, rfl, rfl⟩
